import Mathlib

/-!
Verification of the virtio sound driver module
(`kernel/comps/virtio/src/device/sound/{config.rs, device.rs}`) against its
natural-language specification.

The development shallowly embeds the wire-format layer, the config reader,
device bring-up (`SoundDevice::init`), the synchronous transaction primitive
(`SoundDevice::send`), the event-interrupt decoder (`handle_event_irq`), and
the lock discipline around the control queue.  Machine integers are modelled
as `Nat` (bytes are `Nat` values reduced mod 256 where the code stores them);
fallible operations (`unwrap`-able calls) are modelled with `Option`/`Except`.
-/

namespace VirtioSound

/-! ## Byte-level helpers

Little-endian encodings, as produced by `#[repr(C)]` + `Pod` on the
little-endian targets this driver is built for. -/

/-- The four little-endian bytes of a 32-bit value. -/
def u32le (x : Nat) : List Nat :=
  [x % 256, x / 256 % 256, x / 65536 % 256, x / 16777216 % 256]

/-- The byte at index `i` of a buffer (`0` past the end; reads past the end
are ruled out separately by `Option`-returning readers). -/
def byteAt (buf : List Nat) (i : Nat) : Nat := buf.getD i 0

/-- Decode a 32-bit little-endian value starting at byte `i`. -/
def le32At (buf : List Nat) (i : Nat) : Nat :=
  byteAt buf i + 256 * byteAt buf (i + 1) + 65536 * byteAt buf (i + 2) +
    16777216 * byteAt buf (i + 3)

/-- Decode a 64-bit little-endian value starting at byte `i`. -/
def le64At (buf : List Nat) (i : Nat) : Nat :=
  le32At buf i + 4294967296 * le32At buf (i + 4)

/-! ## Wire-format enumerations (`config.rs`) -/

/-- `MessageHdr` from `config.rs`: the `#[repr(u32)]` message-code
enumeration. -/
inductive MessageHdr where
  | JackInfo
  | JackRemap
  | PcmInfo
  | PcmSetParams
  | PcmPrepare
  | PcmRelease
  | PcmStart
  | PcmStop
  | ChmapInfo
  | CtlInfo
  | CtlEnumItems
  | CtlRead
  | CtlWrite
  | CtlTlvRead
  | CtlTlvWrite
  | CtlTlvCommand
  | JackConnected
  | JackDisconnected
  | PcmPeriodElapsed
  | PcmXrun
  | CtlNotify
  | Ok
  | BadMsg
  | NotSupp
  | IoErr
deriving DecidableEq, Fintype, Repr

/-- The discriminant of each `MessageHdr` variant.  Rust assigns
`JackInfo = 1`, `PcmInfo = 0x0100`, `ChmapInfo = 0x0200`, `CtlInfo = 0x0300`,
`JackConnected = 0x1000`, `PcmPeriodElapsed = 0x1100`, `CtlNotify = 0x1200`,
`Ok = 0x8000`, and each unannotated variant gets the previous value plus
one. -/
def MessageHdr.toCode : MessageHdr → Nat
  | .JackInfo => 0x0001
  | .JackRemap => 0x0002
  | .PcmInfo => 0x0100
  | .PcmSetParams => 0x0101
  | .PcmPrepare => 0x0102
  | .PcmRelease => 0x0103
  | .PcmStart => 0x0104
  | .PcmStop => 0x0105
  | .ChmapInfo => 0x0200
  | .CtlInfo => 0x0300
  | .CtlEnumItems => 0x0301
  | .CtlRead => 0x0302
  | .CtlWrite => 0x0303
  | .CtlTlvRead => 0x0304
  | .CtlTlvWrite => 0x0305
  | .CtlTlvCommand => 0x0306
  | .JackConnected => 0x1000
  | .JackDisconnected => 0x1001
  | .PcmPeriodElapsed => 0x1100
  | .PcmXrun => 0x1101
  | .CtlNotify => 0x1200
  | .Ok => 0x8000
  | .BadMsg => 0x8001
  | .NotSupp => 0x8002
  | .IoErr => 0x8003

/-- All variants of `MessageHdr`, in declaration order. -/
def MessageHdr.all : List MessageHdr :=
  [.JackInfo, .JackRemap, .PcmInfo, .PcmSetParams, .PcmPrepare, .PcmRelease,
   .PcmStart, .PcmStop, .ChmapInfo, .CtlInfo, .CtlEnumItems, .CtlRead,
   .CtlWrite, .CtlTlvRead, .CtlTlvWrite, .CtlTlvCommand, .JackConnected,
   .JackDisconnected, .PcmPeriodElapsed, .PcmXrun, .CtlNotify, .Ok, .BadMsg,
   .NotSupp, .IoErr]

/-- `PcmFormats` from `config.rs`: the 24 sample-format ordinals,
`FmtImaAdpcm = 0` with successive values. -/
inductive PcmFormats where
  | FmtImaAdpcm
  | FmtMuLaw
  | FmtALaw
  | FmtS8
  | FmtU8
  | FmtS16
  | FmtU16
  | FmtS18_3
  | FmtU18_3
  | FmtS20_3
  | FmtU20_3
  | FmtS24_3
  | FmtU24_3
  | FmtS20
  | FmtU20
  | FmtS24
  | FmtU24
  | FmtS32
  | FmtU32
  | FmtFloat
  | FmtFloat64
  | FmtDsdU8
  | FmtDsdU16
  | FmtDsdU32
  | FmtIec958Subframe
deriving DecidableEq, Fintype, Repr

/-- Discriminant of each `PcmFormats` variant (`FmtImaAdpcm = 0`, then +1). -/
def PcmFormats.toCode : PcmFormats → Nat
  | .FmtImaAdpcm => 0
  | .FmtMuLaw => 1
  | .FmtALaw => 2
  | .FmtS8 => 3
  | .FmtU8 => 4
  | .FmtS16 => 5
  | .FmtU16 => 6
  | .FmtS18_3 => 7
  | .FmtU18_3 => 8
  | .FmtS20_3 => 9
  | .FmtU20_3 => 10
  | .FmtS24_3 => 11
  | .FmtU24_3 => 12
  | .FmtS20 => 13
  | .FmtU20 => 14
  | .FmtS24 => 15
  | .FmtU24 => 16
  | .FmtS32 => 17
  | .FmtU32 => 18
  | .FmtFloat => 19
  | .FmtFloat64 => 20
  | .FmtDsdU8 => 21
  | .FmtDsdU16 => 22
  | .FmtDsdU32 => 23
  | .FmtIec958Subframe => 24

/-- `PcmFrameRates` from `config.rs`: the 14 frame-rate ordinals,
`Rate5512 = 0` with successive values. -/
inductive PcmFrameRates where
  | Rate5512
  | Rate8000
  | Rate11025
  | Rate16000
  | Rate22050
  | Rate32000
  | Rate44100
  | Rate48000
  | Rate64000
  | Rate88200
  | Rate96000
  | Rate176400
  | Rate192000
  | Rate384000
deriving DecidableEq, Fintype, Repr

/-- Discriminant of each `PcmFrameRates` variant (`Rate5512 = 0`, then +1). -/
def PcmFrameRates.toCode : PcmFrameRates → Nat
  | .Rate5512 => 0
  | .Rate8000 => 1
  | .Rate11025 => 2
  | .Rate16000 => 3
  | .Rate22050 => 4
  | .Rate32000 => 5
  | .Rate44100 => 6
  | .Rate48000 => 7
  | .Rate64000 => 8
  | .Rate88200 => 9
  | .Rate96000 => 10
  | .Rate176400 => 11
  | .Rate192000 => 12
  | .Rate384000 => 13

/-! ## Request records (`device.rs`) and their `#[repr(C)]` serialization

Each record is `#[repr(C)]` + `Pod`; on the little-endian targets of this
driver, `write_val` copies the in-memory bytes: each field's little-endian
bytes in declaration order.  All the structs below have a layout with no
implicit padding (field offsets are already aligned), so the serialization is
the concatenation of the fields' encodings. -/

/-- `SndPcmQueryInfo`: `{hdr: u32, start_id: u32, count: u32, size: u32}`. -/
structure SndPcmQueryInfo where
  hdr : Nat
  start_id : Nat
  count : Nat
  size : Nat
deriving DecidableEq, Repr

/-- Bytes of a `SndPcmQueryInfo` as written by `write_val` (four `u32`
fields, little-endian, declaration order; size 16, no padding). -/
def SndPcmQueryInfo.serialize (q : SndPcmQueryInfo) : List Nat :=
  u32le q.hdr ++ u32le q.start_id ++ u32le q.count ++ u32le q.size

/-- `SndPcmSetParams`: `{hdr: u32, buffer_bytes: u32, period_bytes: u32,
features: u32, channels: u8, format: u8, rate: u8, padding: [u8; 5]}`. -/
structure SndPcmSetParams where
  hdr : Nat
  buffer_bytes : Nat
  period_bytes : Nat
  features : Nat
  channels : Nat
  format : Nat
  rate : Nat
  padding : List Nat
deriving DecidableEq, Repr

/-- Bytes of a `SndPcmSetParams` as written by `write_val`: four `u32`
fields, three `u8` fields, five explicit padding bytes, in declaration
order.  `#[repr(C)]` inserts no implicit padding here: the `u32` fields
occupy offsets 0/4/8/12, the `u8` fields 16/17/18, the padding 19–23, and
the total 24 is a multiple of the alignment 4. -/
def SndPcmSetParams.serialize (p : SndPcmSetParams) : List Nat :=
  u32le p.hdr ++ u32le p.buffer_bytes ++ u32le p.period_bytes ++
    u32le p.features ++
    [p.channels % 256, p.format % 256, p.rate % 256] ++
    p.padding.map (· % 256)

/-- `SndPcmHdr`: `{hdr: u32, stream_id: u32}`. -/
structure SndPcmHdr where
  hdr : Nat
  stream_id : Nat
deriving DecidableEq, Repr

/-- Bytes of a `SndPcmHdr` (two `u32` fields, size 8, no padding). -/
def SndPcmHdr.serialize (p : SndPcmHdr) : List Nat :=
  u32le p.hdr ++ u32le p.stream_id

/-- `PCM_HDR_SIZE = size_of::<SndPcmHdr>()` = 8. -/
def PCM_HDR_SIZE : Nat := 8

/-- `PCM_SET_PARAMS_SIZE = size_of::<SndPcmSetParams>()` = 24. -/
def PCM_SET_PARAMS_SIZE : Nat := 24

/-- `PCM_INFO_QUERY_SIZE = size_of::<SndPcmQueryInfo>()` = 16. -/
def PCM_INFO_QUERY_SIZE : Nat := 16

/-- `PCM_INFO_SIZE = size_of::<SndPcmInfo>()`: 4 + 4 + 8 + 8 + 1 + 1 + 1 + 5
= 32. -/
def PCM_INFO_SIZE : Nat := 32

/-- The concrete `SndPcmSetParams` request built in `test_device`
(and named by the spec's serialization test): `format = FmtU8`,
`rate = Rate16000`, `channels = 0`. -/
def setParamsExample : SndPcmSetParams :=
  { hdr := MessageHdr.PcmSetParams.toCode
    buffer_bytes := 1
    period_bytes := 1
    features := 0
    channels := 0
    format := PcmFormats.FmtU8.toCode
    rate := PcmFrameRates.Rate16000.toCode
    padding := [0, 0, 0, 0, 0] }

/-! ## DMA regions and the `SoundDevice` buffer state (`device.rs`)

`SoundDevice` owns four `DmaStream`s: `tx_buffer`, `rx_buffer`, `ctl_buffer`,
`event_buffer`.  A region's contents are a list of byte values; a
`DmaStreamSlice` is a `(region, offset, length)` triple. -/

/-- The four `DmaStream` fields of `SoundDevice`. -/
inductive DmaRegionTag where
  | txBuffer
  | rxBuffer
  | ctlBuffer
  | eventBuffer
deriving DecidableEq, Repr

/-- Driver-visible contents of the four DMA regions of a `SoundDevice`. -/
structure SoundBuffers where
  tx_buffer : List Nat
  rx_buffer : List Nat
  ctl_buffer : List Nat
  event_buffer : List Nat
deriving DecidableEq, Repr

/-- Overwrite `data.length` bytes of `region` starting at `off`
(the effect of `write_val`, and of the device depositing response bytes). -/
def writeBytes (region : List Nat) (off : Nat) (data : List Nat) : List Nat :=
  region.take off ++ data ++ region.drop (off + data.length)

/-- One observable DMA/queue operation performed during `send`, in program
order. -/
inductive DmaOp where
  | writeCtl (off : Nat) (bytes : List Nat)
  | syncCtlToDevice (lo hi : Nat)
  | submitChain (ins outs : List (DmaRegionTag × Nat × Nat))
  | notifyDevice
  | popUsed
deriving DecidableEq, Repr

/-- The descriptor-chain inputs `send` submits:
`queue.add_dma_buf(&[&ctl_slice], ...)` with
`ctl_slice = DmaStreamSlice::new(self.ctl_buffer, 0, send_size)`. -/
def sendChainInputs (send_size : Nat) : List (DmaRegionTag × Nat × Nat) :=
  [(.ctlBuffer, 0, send_size)]

/-- The descriptor-chain outputs `send` submits:
`queue.add_dma_buf(..., &[&event_slice])` with
`event_slice = DmaStreamSlice::new(self.event_buffer, 0, recv_size)`. -/
def sendChainOutputs (recv_size : Nat) : List (DmaRegionTag × Nat × Nat) :=
  [(.eventBuffer, 0, recv_size)]

/-- Result of one `send` call: the buffer state after device completion, and
the ordered trace of DMA/queue operations the call performed. -/
structure SendResult where
  bufsAfter : SoundBuffers
  ops : List DmaOp
deriving DecidableEq, Repr

/-- Shallow embedding of `SoundDevice::send`.

Modelled from the spec where the callee lives outside the two source files
(the `DmaStreamSlice`/`VirtQueue` primitives of `ostd` / the `queue` module):
a slice covers `offset..offset+len` of its stream and must fit in it;
`write_val(0, data)` copies the record's bytes to the slice start and
requires them to fit in the slice; `slice.sync()` synchronizes exactly the
slice's byte range; `add_dma_buf` submits the listed input/output slices and
can fail (queue full — the code calls `.expect("add queue failed")`).

Inputs beyond the request: `should_notify` is the queue's notification
predicate, `add_ok` whether descriptor submission succeeds, and
`deviceResp` the bytes the device deposits in the response window before
completion.  `none` models a panic. -/
def send (data : List Nat) (send_size recv_size : Nat) (bufs : SoundBuffers)
    (should_notify add_ok : Bool) (deviceResp : List Nat) :
    Option SendResult :=
  if send_size ≤ bufs.ctl_buffer.length ∧ data.length ≤ send_size ∧
      recv_size ≤ bufs.event_buffer.length ∧ add_ok then
    some
      { bufsAfter :=
          { bufs with
            ctl_buffer := writeBytes bufs.ctl_buffer 0 data
            event_buffer :=
              writeBytes bufs.event_buffer 0 (deviceResp.take recv_size) }
        ops :=
          [DmaOp.writeCtl 0 data, DmaOp.syncCtlToDevice 0 send_size,
            DmaOp.submitChain (sendChainInputs send_size)
              (sendChainOutputs recv_size)] ++
            (if should_notify then [DmaOp.notifyDevice] else []) ++
            [DmaOp.popUsed] }
  else none

/-! ## Readers and response decoding (`device.rs`)

`self.event_buffer.reader()` yields a *fresh* `VmReader` whose cursor starts
at byte 0 of the stream; `read_once::<T>` reads `size_of::<T>()` bytes at
the cursor. -/

/-- A `VmReader` over a DMA stream: the stream's bytes plus a cursor. -/
structure VmReaderModel where
  buf : List Nat
  pos : Nat
deriving DecidableEq, Repr

/-- `stream.reader()`: a fresh reader with the cursor at byte 0. -/
def freshReader (buf : List Nat) : VmReaderModel := ⟨buf, 0⟩

/-- `read_once::<u8>()`: the byte at the cursor, advancing it. -/
def VmReaderModel.read_once_u8 (r : VmReaderModel) :
    Option (Nat × VmReaderModel) :=
  if r.pos + 1 ≤ r.buf.length then
    some (byteAt r.buf r.pos, ⟨r.buf, r.pos + 1⟩)
  else none

/-- `read_once::<u32>()`: four little-endian bytes at the cursor. -/
def VmReaderModel.read_once_u32 (r : VmReaderModel) :
    Option (Nat × VmReaderModel) :=
  if r.pos + 4 ≤ r.buf.length then
    some (le32At r.buf r.pos, ⟨r.buf, r.pos + 4⟩)
  else none

/-- `read_once::<u64>()`: eight little-endian bytes at the cursor. -/
def VmReaderModel.read_once_u64 (r : VmReaderModel) :
    Option (Nat × VmReaderModel) :=
  if r.pos + 8 ≤ r.buf.length then
    some (le64At r.buf r.pos, ⟨r.buf, r.pos + 8⟩)
  else none

/-- The seven values decoded by `handle_event_irq` and by the `PcmInfo`
query block of `test_device`. -/
structure PcmInfoDecode where
  hdr : Nat
  features : Nat
  formats : Nat
  rates : Nat
  direction : Nat
  channel_min : Nat
  channel_max : Nat
deriving DecidableEq, Repr

/-- The DMA region and byte range `handle_event_irq` synchronizes and then
reads: `self.event_buffer.sync(0..PCM_INFO_SIZE)` followed by reads through
`self.event_buffer.reader()`. -/
def handle_event_irq_target : DmaRegionTag × Nat × Nat :=
  (.eventBuffer, 0, PCM_INFO_SIZE)

/-- Shallow embedding of `SoundDevice::handle_event_irq`: sync
`event_buffer[0..PCM_INFO_SIZE]`, then read each of the seven fields
through a **fresh** `self.event_buffer.reader()` — one new reader per line,
exactly as in the source. -/
def handle_event_irq (event : List Nat) : Option PcmInfoDecode :=
  if PCM_INFO_SIZE ≤ event.length then do
    let (hdr, _) ← (freshReader event).read_once_u32
    let (features, _) ← (freshReader event).read_once_u32
    let (formats, _) ← (freshReader event).read_once_u64
    let (rates, _) ← (freshReader event).read_once_u64
    let (direction, _) ← (freshReader event).read_once_u8
    let (channel_min, _) ← (freshReader event).read_once_u8
    let (channel_max, _) ← (freshReader event).read_once_u8
    pure { hdr, features, formats, rates, direction, channel_min,
           channel_max }
  else none

/-- Shallow embedding of the `PcmInfo` decode in `test_device` (after the
`PcmInfo` query `send`): textually the same seven fresh-reader reads as
`handle_event_irq`, preceded by the same sync. -/
def queryInfoDecode (event : List Nat) : Option PcmInfoDecode :=
  if PCM_INFO_SIZE ≤ event.length then do
    let (hdr, _) ← (freshReader event).read_once_u32
    let (features, _) ← (freshReader event).read_once_u32
    let (formats, _) ← (freshReader event).read_once_u64
    let (rates, _) ← (freshReader event).read_once_u64
    let (direction, _) ← (freshReader event).read_once_u8
    let (channel_min, _) ← (freshReader event).read_once_u8
    let (channel_max, _) ← (freshReader event).read_once_u8
    pure { hdr, features, formats, rates, direction, channel_min,
           channel_max }
  else none

/-- Shallow embedding of the `Set PCM params` block of `test_device`:
build the request (`setParamsExample`), call
`send(&req, PCM_SET_PARAMS_SIZE, 8, queue)`, sync
`event_buffer[0..8]`, then decode `hdr` and `data` — each through a fresh
`self.event_buffer.reader()`.  The decoded pair is only printed; there is no
status inspection and no error path besides the `unwrap` panics (`none`). -/
def setParamsTransaction (bufs : SoundBuffers) (should_notify add_ok : Bool)
    (deviceResp : List Nat) : Option (Nat × Nat) := do
  let res ← send setParamsExample.serialize PCM_SET_PARAMS_SIZE 8 bufs
    should_notify add_ok deviceResp
  let event := res.bufsAfter.event_buffer
  if 8 ≤ event.length then
    let (hdr, _) ← (freshReader event).read_once_u32
    let (data, _) ← (freshReader event).read_once_u32
    pure (hdr, data)
  else none

/-! ## Config reader (`config.rs`) and bring-up (`device.rs`) -/

/-- Device configuration memory: `read_once::<u32>(offset)` may fail
(e.g. the memory-mapped region is unavailable). -/
abbrev ConfigMem := Nat → Option Nat

/-- A Rust panic (`unwrap`/`expect` on a failed operation): control never
returns to the caller, so no error *value* is produced. -/
inductive RustAbort where
  | unwrapFailed
deriving DecidableEq, Repr

/-- `.unwrap()`: the value on success, a panic on failure. -/
def orAbort {α : Type} (o : Option α) : Except RustAbort α :=
  match o with
  | some a => .ok a
  | none => .error .unwrapFailed

/-- `VirtioSoundConfig` from `config.rs`: four `u32` counts. -/
structure VirtioSoundConfig where
  jacks : Nat
  streams : Nat
  chmaps : Nat
  controls : Nat
deriving DecidableEq, Repr

/-- Shallow embedding of `ConfigManager::<VirtioSoundConfig>::read_config`:
four fixed-offset `read_once::<u32>` reads at the `#[repr(C)]` field
offsets 0, 4, 8, 12, each immediately `.unwrap()`ed — a failed read panics;
no error value is ever returned (the Rust return type is the bare
`VirtioSoundConfig`). -/
def read_config (mem : ConfigMem) : Except RustAbort VirtioSoundConfig := do
  let jacks ← orAbort (mem 0)
  let streams ← orAbort (mem 4)
  let chmaps ← orAbort (mem 8)
  let controls ← orAbort (mem 12)
  pure { jacks, streams, chmaps, controls }

/-- The collaborator operations `SoundDevice::init` consumes, each fallible
exactly where `init` calls `.unwrap()`:
`VirtQueue::new(index, 2, transport)` per queue index,
`FrameAllocOptions::new().alloc_segment(n)` + `DmaStream::map` per region
(by segment page count), `register_cfg_callback`, and the `unwrap`/`expect`
calls inside the `test_device` self-test that `init` runs before
returning. -/
structure TransportModel where
  configMem : ConfigMem
  virtqueueNew : Nat → Option Unit
  allocDma : Nat → Option Unit
  registerCfgCallback : Option Unit
  testDeviceRun : Option Unit

/-- Shallow embedding of `SoundDevice::init`.  The Rust signature is
`init(transport: Box<dyn VirtioTransport>) -> Result<(), VirtioDeviceError>`:
on success it returns `Ok(())` — the `Arc<SoundDevice>` aggregate is
constructed, used by `test_device`, and then dropped, never returned — and
every fallible bring-up step is `.unwrap()`ed, so a failing step panics
(`.error`) instead of producing a `VirtioDeviceError`.  Step order follows
the source: config read, the three queues at indices 0/1/2, the four DMA
regions (tx 4 pages, rx 4 pages, ctl 100 pages, event 100 pages), callback
registration, `finish_init`, then the `test_device` self-test. -/
def init (tr : TransportModel) : Except RustAbort Unit := do
  let _config ← read_config tr.configMem
  let _queue ← orAbort (tr.virtqueueNew 0)
  let _txq ← orAbort (tr.virtqueueNew 1)
  let _rxq ← orAbort (tr.virtqueueNew 2)
  let _tx_buffer ← orAbort (tr.allocDma 4)
  let _rx_buffer ← orAbort (tr.allocDma 4)
  let _ctl_buffer ← orAbort (tr.allocDma 100)
  let _event_buffer ← orAbort (tr.allocDma 100)
  let _cb ← orAbort tr.registerCfgCallback
  let _test ← orAbort tr.testDeviceRun
  pure ()

/-! ## The completion busy-wait in `send` (`device.rs`)

`while !queue.can_pop() { spin_loop(); } queue.pop_used().unwrap()`.
`canPop t` is whether a completed descriptor is available at the `t`-th
poll of `can_pop`.  The loop's only exit is `can_pop` returning true; we
observe it through a fuel bound on the number of polls.  The result is the
index of the first successful poll (at which `pop_used` retrieves the
completed descriptor). -/

/-- Run the busy-wait from poll index `t` for at most `fuel` polls. -/
def spinWaitFrom (canPop : Nat → Bool) (t : Nat) : Nat → Option Nat
  | 0 => none
  | fuel + 1 =>
    if canPop t then some t else spinWaitFrom canPop (t + 1) fuel

/-! ## Lock discipline around the control queue (`device.rs`)

`send` takes `queue: &mut SpinLockGuard<VirtQueue, LocalIrqDisabled>`: its
entire body — request write, sync, submission, busy-wait, retrieval — runs
while the caller holds the queue's lock (`test_device` acquires it with
`self.queue.disable_irq().lock()` and passes the guard down).  We model two
concurrent callers (`Bool`) interleaving on one queue. -/

/-- A caller's position: outside any transaction, or `step` buffer-touching
steps into the body of `send`. -/
inductive CallerPc where
  | idle
  | inSend (step : Nat)
deriving DecidableEq, Repr

/-- Global state of the two callers racing on one queue: the `SpinLock`
owner (if any) and each caller's position. -/
structure ConcState where
  lock : Option Bool
  pcOf : Bool → CallerPc

/-- Pointwise update of a caller's position. -/
def setPc (f : Bool → CallerPc) (c : Bool) (v : CallerPc) :
    Bool → CallerPc :=
  fun d => if d = c then v else f d

/-- A caller's transition label. -/
inductive ConcAct where
  | acquire
  | sendStep
  | release
deriving DecidableEq, Repr

/-- Interleaving semantics of two callers around one control queue.

`acquire` — `self.queue.disable_irq().lock()`.  Modelled from the spec: the
`ostd` `SpinLock` (declared outside the two source files) is a
mutual-exclusion lock, so acquisition succeeds only when no caller holds it.

`sendStep` — one buffer-touching step inside `send` (request-byte write,
sync, submission, response retrieval).  From the source: `send`'s parameter
is the `SpinLockGuard` itself, so a caller can take such a step only while
it is the lock's owner.

`release` — the guard is dropped, from anywhere inside the critical
section. -/
inductive ConcStep : ConcState → Bool × ConcAct → ConcState → Prop where
  | acquire (s : ConcState) (c : Bool) :
      s.lock = none → s.pcOf c = .idle →
      ConcStep s (c, .acquire)
        { lock := some c, pcOf := setPc s.pcOf c (.inSend 0) }
  | sendStep (s : ConcState) (c : Bool) (k : Nat) :
      s.lock = some c → s.pcOf c = .inSend k →
      ConcStep s (c, .sendStep)
        { s with pcOf := setPc s.pcOf c (.inSend (k + 1)) }
  | release (s : ConcState) (c : Bool) (k : Nat) :
      s.lock = some c → s.pcOf c = .inSend k →
      ConcStep s (c, .release)
        { lock := none, pcOf := setPc s.pcOf c .idle }

/-- Initial state: the lock is free and both callers are idle. -/
def initConc : ConcState := { lock := none, pcOf := fun _ => .idle }

/-- States reachable by interleaving the two callers. -/
inductive ConcReachable : ConcState → Prop where
  | init : ConcReachable initConc
  | step {s : ConcState} {a : Bool × ConcAct} {t : ConcState} :
      ConcReachable s → ConcStep s a t → ConcReachable t

/-! ## Concrete inputs used by counterexamples and witnesses -/

/-- A concrete buffer state: 32-byte control and event regions (stand-ins
for the 100-page allocations), zero-filled. -/
def bufs0 : SoundBuffers :=
  { tx_buffer := List.replicate 16 0
    rx_buffer := List.replicate 16 0
    ctl_buffer := List.replicate 32 0
    event_buffer := List.replicate 32 0 }

/-- An 8-byte device response whose status word is `BadMsg` (0x8001). -/
def badMsgResp : List Nat := u32le 0x8001 ++ u32le 0

/-- A transport on which every bring-up step succeeds (all-zero config). -/
def okTransport : TransportModel :=
  { configMem := fun _ => some 0
    virtqueueNew := fun _ => some ()
    allocDma := fun _ => some ()
    registerCfgCallback := some ()
    testDeviceRun := some () }

/-- A transport whose device-config read at offset 0 (`jacks`) fails;
everything else succeeds. -/
def failCfg0Transport : TransportModel :=
  { okTransport with configMem := fun off => if off = 0 then none else some 0 }

/-- Config memory whose read at offset 4 (`streams`) fails. -/
def memFailAt4 : ConfigMem := fun off => if off = 4 then none else some 7

/-- The spec's partition of the message-code space, with the PCM-control
range corrected to end at 0x0105 (the spec says 0x0106): jack control,
PCM control, channel-map control, mixer/control-element, jack events, PCM
events, control events, status codes. -/
def messageCodeRanges : List Nat :=
  [0x0001, 0x0002] ++ (List.range 6).map (0x0100 + ·) ++ [0x0200] ++
    (List.range 7).map (0x0300 + ·) ++ [0x1000, 0x1001] ++
    [0x1100, 0x1101] ++ [0x1200] ++ [0x8000, 0x8001, 0x8002, 0x8003]

/-- An 8-byte device response whose status word is `Ok` (0x8000). -/
def okResp : List Nat := u32le 0x8000 ++ u32le 0

/-! ## Helper lemmas -/

theorem MessageHdr.mem_all (m : MessageHdr) : m ∈ MessageHdr.all := by
  cases m <;> simp [MessageHdr.all]

theorem spinWaitFrom_isSome (canPop : Nat → Bool) :
    ∀ fuel t k, k < fuel → canPop (t + k) = true →
      (spinWaitFrom canPop t fuel).isSome = true := by
  intro fuel
  induction fuel with
  | zero => intro t k hk _; exact absurd hk (Nat.not_lt_zero k)
  | succ f ih =>
    intro t k hk hpop
    by_cases hc : canPop t
    · simp [spinWaitFrom, hc]
    · cases k with
      | zero => simp at hpop; exact absurd hpop hc
      | succ j =>
        have : canPop (t + 1 + j) = true := by
          have : t + 1 + j = t + (j + 1) := by omega
          rw [this]; exact hpop
        simp [spinWaitFrom, hc]
        exact ih (t + 1) j (by omega) this

theorem spinWaitFrom_sound (canPop : Nat → Bool) :
    ∀ fuel t u, spinWaitFrom canPop t fuel = some u →
      canPop u = true ∧ t ≤ u ∧ ∀ s, t ≤ s → s < u → canPop s = false := by
  intro fuel
  induction fuel with
  | zero => intro t u h; exact absurd h (by simp [spinWaitFrom])
  | succ f ih =>
    intro t u h
    by_cases hc : canPop t
    · rw [spinWaitFrom, if_pos hc] at h
      obtain rfl : t = u := Option.some.inj h
      exact ⟨hc, Nat.le_refl t, fun s hs hsu => absurd hsu (by omega)⟩
    · rw [spinWaitFrom, if_neg hc] at h
      obtain ⟨h1, h2, h3⟩ := ih (t + 1) u h
      refine ⟨h1, by omega, fun s hs hsu => ?_⟩
      rcases Nat.eq_or_lt_of_le hs with hst | hst
      · rw [← hst]; exact Bool.eq_false_iff.mpr hc
      · exact h3 s (by omega) hsu

theorem spinWaitFrom_none (canPop : Nat → Bool)
    (h : ∀ s, canPop s = false) :
    ∀ fuel t, spinWaitFrom canPop t fuel = none := by
  intro fuel
  induction fuel with
  | zero => intro t; rfl
  | succ f ih => intro t; rw [spinWaitFrom, if_neg (by simp [h t])]; exact ih (t + 1)

theorem concInvariant {s : ConcState} (h : ConcReachable s) :
    ∀ c, s.pcOf c ≠ .idle → s.lock = some c := by
  induction h with
  | init => intro c hc; exact absurd rfl hc
  | step hr hstep ih =>
    rename_i s a t
    cases hstep with
    | acquire c hl hp =>
      intro d hd
      by_cases hdc : d = c
      · subst hdc; rfl
      · exfalso
        have hd0 : s.pcOf d ≠ .idle := by simpa [setPc, hdc] using hd
        have hld := ih d hd0
        rw [hl] at hld
        exact Option.noConfusion hld
    | sendStep c k hl hp =>
      intro d hd
      by_cases hdc : d = c
      · subst hdc; exact hl
      · have hd0 : s.pcOf d ≠ .idle := by simpa [setPc, hdc] using hd
        exact ih d hd0
    | release c k hl hp =>
      intro d hd
      by_cases hdc : d = c
      · subst hdc; exact absurd (by simp [setPc]) hd
      · exfalso
        have hd0 : s.pcOf d ≠ .idle := by simpa [setPc, hdc] using hd
        have hld := ih d hd0
        rw [hl] at hld
        exact hdc (Option.some.inj hld).symm

/-! ## Claim theorems -/

/-- C1, counterexample: the claim asserts the event-interrupt path's DMA
region is never the same region as `send`'s request *and response* buffers.
Concretely, a `send` of the 8-byte `PcmPrepare` header with an 8-byte
response designates `(event_buffer, 0, 8)` as the response window — and
`handle_event_irq` synchronizes and reads that very `event_buffer`
region. -/
theorem C1_counterexample :
    (send (SndPcmHdr.serialize ⟨MessageHdr.PcmPrepare.toCode, 0⟩)
          PCM_HDR_SIZE 8 bufs0 true true okResp).map
        SendResult.ops =
      some [DmaOp.writeCtl 0 [2, 1, 0, 0, 0, 0, 0, 0],
        DmaOp.syncCtlToDevice 0 8,
        DmaOp.submitChain [(DmaRegionTag.ctlBuffer, 0, 8)]
          [(DmaRegionTag.eventBuffer, 0, 8)],
        DmaOp.notifyDevice, DmaOp.popUsed] ∧
    handle_event_irq_target = (DmaRegionTag.eventBuffer, 0, 32) := by
  exact ⟨by decide, rfl⟩

/-- C1, amended: for every request size `s` and response size `r`, the
chain `send` submits takes its request slice from `ctl_buffer` — a region
distinct from the one `handle_event_irq` synchronizes and reads — but its
response window lies in the *same* region (`event_buffer`) that
`handle_event_irq` synchronizes and reads. -/
theorem C1_event_region_shared_with_response (s r : Nat) :
    sendChainInputs s = [(DmaRegionTag.ctlBuffer, 0, s)] ∧
    DmaRegionTag.ctlBuffer ≠ handle_event_irq_target.1 ∧
    sendChainOutputs r = [(handle_event_irq_target.1, 0, r)] :=
  ⟨rfl, by decide, rfl⟩

/-- C2: evaluation at the failing input.  A `SetParams` control transaction
whose device response carries status `BadMsg` (0x8001) completes as a
success: `send` returns without inspecting the response, and the caller
merely decodes (and logs) the raw words — there is no `DeviceRejected` /
`ProtocolViolation` error path anywhere in `send` or `test_device`. -/
theorem C2_badmsg_treated_as_success :
    setParamsTransaction bufs0 true true badMsgResp =
      some (0x8001, 0x8001) := by decide

/-- C3, counterexample: the `SndPcmSetParams` record of the claim
(`format = FmtU8`, `rate = Rate16000`, `channels = 0`) does *not* serialize
to 20 bytes. -/
theorem C3_counterexample : setParamsExample.serialize.length ≠ 20 := by
  decide

/-- C3, amended: every `SndPcmSetParams` record (with its declared 5
padding bytes) serializes to exactly **24** bytes, the fields laid out in
declared order (`code/hdr`, `buffer_bytes`, `period_bytes`, `features`,
`channels`, `format`, `rate`, `pad`), little-endian; the claim's record
yields the exact byte string below, with `FmtU8 = 4` and
`Rate16000 = 3`. -/
theorem C3_set_params_serializes_to_24_bytes (p : SndPcmSetParams)
    (hpad : p.padding.length = 5) :
    p.serialize.length = 24 ∧
    setParamsExample.serialize =
      [0x01, 0x01, 0, 0, 1, 0, 0, 0, 1, 0, 0, 0, 0, 0, 0, 0,
       0, 4, 3, 0, 0, 0, 0, 0] ∧
    PcmFormats.FmtU8.toCode = 4 ∧ PcmFrameRates.Rate16000.toCode = 3 := by
  refine ⟨?_, by decide, rfl, rfl⟩
  simp [SndPcmSetParams.serialize, u32le, hpad]

/-- C3, witness at the claim's concrete record. -/
theorem C3_witness :
    setParamsExample.padding.length = 5 ∧
    setParamsExample.serialize.length = 24 :=
  ⟨by decide, (C3_set_params_serializes_to_24_bytes setParamsExample
    (by decide)).1⟩

/-- C4: for every request byte string of declared size `S`, one `send` call
writes exactly those `S` bytes at offset 0 of the control DMA region
(leaving the rest unchanged), synchronizes `0..S` processor→device before
submission, and submits a chain whose response window is exactly the
`R`-byte range at offset 0 of the event DMA region — regardless of the
request's content, the notification predicate, or the device's response
bytes. -/
theorem C4_send_exact_window (data : List Nat) (s r : Nat)
    (bufs : SoundBuffers) (notif : Bool) (resp : List Nat)
    (hdata : data.length = s) (hs : s ≤ bufs.ctl_buffer.length)
    (hr : r ≤ bufs.event_buffer.length) :
    (send data s r bufs notif true resp).map
        (fun res => (res.bufsAfter.ctl_buffer, res.ops.take 3)) =
      some (data ++ bufs.ctl_buffer.drop s,
        [DmaOp.writeCtl 0 data, DmaOp.syncCtlToDevice 0 s,
          DmaOp.submitChain [(DmaRegionTag.ctlBuffer, 0, s)]
            [(DmaRegionTag.eventBuffer, 0, r)]]) := by
  have hcond : s ≤ bufs.ctl_buffer.length ∧ data.length ≤ s ∧
      r ≤ bufs.event_buffer.length ∧ (true : Bool) = true :=
    ⟨hs, by omega, hr, rfl⟩
  rw [send, if_pos hcond]
  cases notif <;>
    simp [writeBytes, hdata, sendChainInputs, sendChainOutputs]

/-- C4, witness: a concrete 8-byte request. -/
theorem C4_witness :
    (send (List.replicate 8 7) 8 8 bufs0 true true okResp).map
        (fun res => (res.bufsAfter.ctl_buffer, res.ops.take 3)) =
      some (List.replicate 8 7 ++ bufs0.ctl_buffer.drop 8,
        [DmaOp.writeCtl 0 (List.replicate 8 7), DmaOp.syncCtlToDevice 0 8,
          DmaOp.submitChain [(DmaRegionTag.ctlBuffer, 0, 8)]
            [(DmaRegionTag.eventBuffer, 0, 8)]]) :=
  C4_send_exact_window (List.replicate 8 7) 8 8 bufs0 true okResp
    (by decide) (by decide) (by decide)

/-- C5: evaluation at the failing input.  `SoundDevice::init` returns
`Ok(())` on a fully successful transport — the device aggregate is built,
self-tested, and dropped, never handed to the caller — and on a transport
whose first config read fails it panics (`unwrap`), producing no
`InitError`/`VirtioDeviceError` value.  (The claim says success yields the
device object and failure yields an `InitError`.) -/
theorem C5_init_returns_unit_or_panics :
    init okTransport = Except.ok () ∧
    init failCfg0Transport = Except.error RustAbort.unwrapFailed :=
  ⟨rfl, rfl⟩

/-- C6: evaluation at the failing input.  When the `streams` read at
offset 4 fails, `read_config` panics via `unwrap` — the caller receives no
`ConfigReadError` value — and `init` on such a transport likewise panics,
so queue setup is indeed never reached, but by abort rather than by a
returned error. -/
theorem C6_read_config_panics_not_error_value :
    read_config memFailAt4 = Except.error RustAbort.unwrapFailed ∧
    init { okTransport with configMem := memFailAt4 } =
      Except.error RustAbort.unwrapFailed :=
  ⟨rfl, rfl⟩

/-- C7, counterexample: the code point 0x0106 — which the claim's PCM
control range 0x0100–0x0106 includes — is not the discriminant of any
`MessageHdr` variant. -/
theorem C7_counterexample :
    ¬(0x0106 ∈ MessageHdr.all.map MessageHdr.toCode) := by decide

/-- C7, amended: the 25 `MessageHdr` discriminants occupy exactly
jack control 0x0001–0x0002, PCM control 0x0100–**0x0105**, channel-map
control 0x0200, mixer/control-element 0x0300–0x0306, jack events
0x1000–0x1001, PCM events 0x1100–0x1101, control events 0x1200, and the
status codes 0x8000 = Ok, 0x8001 = BadMsg, 0x8002 = NotSupp,
0x8003 = IoErr. -/
theorem C7_message_code_ranges :
    MessageHdr.all.map MessageHdr.toCode = messageCodeRanges ∧
    (∀ m : MessageHdr, m ∈ MessageHdr.all) ∧
    MessageHdr.Ok.toCode = 0x8000 ∧ MessageHdr.BadMsg.toCode = 0x8001 ∧
    MessageHdr.NotSupp.toCode = 0x8002 ∧
    MessageHdr.IoErr.toCode = 0x8003 :=
  ⟨by decide, MessageHdr.mem_all, rfl, rfl, rfl, rfl⟩

/-- C8: the completion wait in `send` is a pure busy-wait.  If the device
makes a completed descriptor available at some poll, the wait terminates
and retrieves exactly the first such poll; a result is only ever produced
at a poll where `can_pop` holds (so there is no timeout value); and if the
device never completes, the wait yields nothing at *any* poll bound — it
spins forever, with no timeout or abort path. -/
theorem C8_busy_wait_no_timeout (canPop : Nat → Bool) :
    (∀ n, canPop n = true →
      (spinWaitFrom canPop 0 (n + 1)).isSome = true) ∧
    (∀ fuel u, spinWaitFrom canPop 0 fuel = some u →
      canPop u = true ∧ ∀ s, s < u → canPop s = false) ∧
    ((∀ n, canPop n = false) →
      ∀ fuel, spinWaitFrom canPop 0 fuel = none) := by
  refine ⟨?_, ?_, ?_⟩
  · intro n hn
    exact spinWaitFrom_isSome canPop (n + 1) 0 n (by omega)
      (by simpa using hn)
  · intro fuel u h
    obtain ⟨h1, _, h3⟩ := spinWaitFrom_sound canPop fuel 0 u h
    exact ⟨h1, fun s hs => h3 s (by omega) hs⟩
  · intro h fuel
    exact spinWaitFrom_none canPop h fuel 0

/-- C8, witness: a device completing at the third poll, and one that never
completes. -/
theorem C8_witness :
    (spinWaitFrom (fun n => decide (n = 2)) 0 3).isSome = true ∧
    spinWaitFrom (fun _ => false) 0 5 = none :=
  ⟨(C8_busy_wait_no_timeout (fun n => decide (n = 2))).1 2 (by decide),
   (C8_busy_wait_no_timeout (fun _ => false)).2.2 (fun _ => rfl) 5⟩

/-- C9: in every reachable interleaving of two callers on the control
queue, a caller inside `send` is the owner of the queue's exclusive lock
(since `send` takes the `SpinLockGuard` for its full duration), hence at
most one transaction is in flight on the queue's request/response buffer
pair at any time, and any `send` step is taken only by the lock owner — so
concurrent transactions are totally ordered and request/response bytes of
different callers never interleave. -/
theorem C9_queue_lock_mutual_exclusion (s : ConcState)
    (h : ConcReachable s) :
    (∀ c, s.pcOf c ≠ .idle → s.lock = some c) ∧
    ¬(s.pcOf true ≠ .idle ∧ s.pcOf false ≠ .idle) ∧
    (∀ t c, ConcStep s (c, ConcAct.sendStep) t → s.lock = some c) := by
  refine ⟨concInvariant h, ?_, ?_⟩
  · rintro ⟨h1, h2⟩
    have e1 := concInvariant h true h1
    have e2 := concInvariant h false h2
    rw [e1] at e2
    exact Bool.noConfusion (Option.some.inj e2)
  · intro t c hstep
    cases hstep with
    | sendStep c k hl hp => exact hl

/-- C9, witness: the initial state is reachable and satisfies mutual
exclusion. -/
theorem C9_witness :
    ¬(initConc.pcOf true ≠ CallerPc.idle ∧
      initConc.pcOf false ≠ CallerPc.idle) :=
  (C9_queue_lock_mutual_exclusion initConc ConcReachable.init).2.1

/-- C10: both multi-field response decodes — `handle_event_irq` and the
`PcmInfo` query block of `test_device` — construct a fresh reader at byte 0
of the event buffer for every field, so each decoded value comes from the
buffer's leading bytes (overlapping the message code) rather than from the
`PcmInfo` field offsets 4, 8, 16, 24, 25, 26; in particular the decoded
32-bit `features` always equals the decoded 32-bit message code. -/
theorem C10_decode_from_leading_bytes (event : List Nat)
    (h : 32 ≤ event.length) :
    handle_event_irq event =
      some { hdr := le32At event 0, features := le32At event 0,
             formats := le64At event 0, rates := le64At event 0,
             direction := byteAt event 0, channel_min := byteAt event 0,
             channel_max := byteAt event 0 } ∧
    queryInfoDecode event = handle_event_irq event ∧
    (handle_event_irq event).map PcmInfoDecode.features =
      (handle_event_irq event).map PcmInfoDecode.hdr := by
  have h32 : PCM_INFO_SIZE ≤ event.length := by
    simpa [PCM_INFO_SIZE] using h
  have hu32 : (0 : Nat) + 4 ≤ event.length := by omega
  have hu64 : (0 : Nat) + 8 ≤ event.length := by omega
  have hu8 : (0 : Nat) + 1 ≤ event.length := by omega
  have hdec : handle_event_irq event =
      some { hdr := le32At event 0, features := le32At event 0,
             formats := le64At event 0, rates := le64At event 0,
             direction := byteAt event 0, channel_min := byteAt event 0,
             channel_max := byteAt event 0 } := by
    rw [handle_event_irq, if_pos h32]
    simp [freshReader, VmReaderModel.read_once_u32,
      VmReaderModel.read_once_u64, VmReaderModel.read_once_u8,
      hu32, hu64, hu8]
  have hq : queryInfoDecode event = handle_event_irq event := by
    rw [handle_event_irq, queryInfoDecode]
  exact ⟨hdec, hq, by simp [hdec]⟩

/-- C10, witness: the 32-byte buffer `0,1,2,...,31`. -/
theorem C10_witness :
    (handle_event_irq (List.range 32)).map PcmInfoDecode.features =
      (handle_event_irq (List.range 32)).map PcmInfoDecode.hdr :=
  (C10_decode_from_leading_bytes (List.range 32) (by decide)).2.2

end VirtioSound
